import Mathlib

/-!
# Verification of the ethereumjs block-header / RLPx-server core

A shallow embedding of `packages/client/lib/net/server/rlpxserver.ts`
(the `RlpxServer` class) and of the `BlockHeader` class bundled in the
same source file, together with proofs of the specification claims.

Byte buffers are modelled as `List Nat` (each entry a byte value),
`BN` big integers as `Nat` (all header numerics are non-negative) or
`Int` where the source's intermediate values can be negative, and
fallible code as `Except`.  `BN#idivn` / `BN#divn` truncate toward
zero, which is `Int.tdiv` (equal to `Nat` division on non-negative
operands); JavaScript's `%` is `Int.tmod`.
-/

deriving instance DecidableEq for Except

namespace EJS

/-! ## Hardforks and the `Common` chain-parameter collaborator

`@ethereumjs/common` is an external collaborator (spec §2): it resolves
named protocol constants per hardfork and answers consensus queries.
`hardforkGteHardfork a b` compares the positions of the two forks in the
mainnet ordering (spec §9: `isHardforkGte(a,b) ≡ rank(a) ≥ rank(b)`). -/

inductive Hardfork
  | chainstart
  | homestead
  | dao
  | tangerineWhistle
  | spuriousDragon
  | byzantium
  | constantinople
  | petersburg
  | istanbul
  | muirGlacier
  | berlin
deriving DecidableEq, Repr

def Hardfork.rank : Hardfork → Nat
  | .chainstart => 0
  | .homestead => 1
  | .dao => 2
  | .tangerineWhistle => 3
  | .spuriousDragon => 4
  | .byzantium => 5
  | .constantinople => 6
  | .petersburg => 7
  | .istanbul => 8
  | .muirGlacier => 9
  | .berlin => 10

def hardforkGteHardfork (a b : Hardfork) : Bool :=
  b.rank ≤ a.rank

/-- Model of the `Common` instance carried by a `BlockHeader`
(`this._common`).  `resolvedHardfork` models `_getHardfork()`
(= `common.hardfork() || common.activeHardfork(number)`; a constructed
`Common` always has a hardfork set).  The `paramByHardfork` lookups used
by the source are modelled as one function field per parameter name. -/
structure Common where
  consensusType : String
  consensusAlgorithm : String
  resolvedHardfork : Hardfork
  minimumDifficulty : Hardfork → Nat
  difficultyBoundDivisor : Hardfork → Nat
  durationLimit : Hardfork → Nat
  gasLimitBoundDivisor : Hardfork → Nat
  minGasLimit : Hardfork → Nat
  maxExtraDataSize : Hardfork → Nat
  consensusPeriod : Nat
  consensusEpoch : Nat
  daoActiveOnChain : Bool
  daoHardforkBlock : Nat

/-! ## BlockHeader data model -/

/-- The 15 header fields (spec §3).  `coinbase` holds the 20 bytes of the
`Address` (`Address#buf`); numeric `BN` fields are `Nat`. -/
structure BlockHeader where
  parentHash : List Nat
  uncleHash : List Nat
  coinbase : List Nat
  stateRoot : List Nat
  transactionsTrie : List Nat
  receiptTrie : List Nat
  bloom : List Nat
  difficulty : Nat
  number : Nat
  gasLimit : Nat
  gasUsed : Nat
  timestamp : Nat
  extraData : List Nat
  mixHash : List Nat
  nonce : List Nat
deriving DecidableEq, Repr

/-- `KECCAK256_RLP_ARRAY` — keccak256 of the RLP of an empty list
(well-known 32-byte constant from `ethereumjs-util`). -/
def KECCAK256_RLP_ARRAY : List Nat :=
  [0x1d, 0xcc, 0x4d, 0xe8, 0xde, 0xc7, 0x5d, 0x7a, 0xab, 0x85, 0xb5, 0x67,
   0xb6, 0xcc, 0xd4, 0x1a, 0xd3, 0x12, 0x45, 0x1b, 0x94, 0x8a, 0x74, 0x13,
   0xf0, 0xa1, 0x42, 0xfd, 0x40, 0xd4, 0x93, 0x47]

def CLIQUE_EXTRA_VANITY : Nat := 32
def CLIQUE_EXTRA_SEAL : Nat := 65

/-- The 13 ASCII bytes of `'dao-hard-fork'`
(`Buffer.from('64616f2d686172642d666f726b', 'hex')`). -/
def DAO_ExtraData : List Nat :=
  [0x64, 0x61, 0x6f, 0x2d, 0x68, 0x61, 0x72, 0x64, 0x2d, 0x66, 0x6f, 0x72, 0x6b]

/-! ## Minimal big-endian encoding of naturals

`raw()` encodes each numeric field as `unpadBuffer(toBuffer(bn))`:
big-endian bytes with leading zeros stripped, zero as the empty buffer.
`natToBE` is written with an explicit fuel argument (the number itself
suffices) so that it is structurally recursive and reduces inside
`decide` / `rfl` proofs. -/

def natToBEAux : Nat → Nat → List Nat
  | _, 0 => []
  | 0, _ + 1 => []
  | fuel + 1, n + 1 => natToBEAux fuel ((n + 1) / 256) ++ [(n + 1) % 256]

def natToBE (n : Nat) : List Nat := natToBEAux n n

/-- Big-endian bytes to `Nat` (the `new BN(buffer)` interpretation;
the empty buffer is zero). -/
def beToNat (l : List Nat) : Nat :=
  l.foldl (fun acc b => acc * 256 + b) 0

/-! ## RLP codec

Models the external `rlp` codec from `ethereumjs-util` on the shapes a
block header uses: byte strings, and a top-level sequence of byte
strings.  `rlpEncodeStr` / `rlpEncodeList` follow the canonical
encoder (single byte `< 0x80` unchanged; short/long string prefixes
`0x80`/`0xb7`; short/long list prefixes `0xc0`/`0xf7`).  The decoder
`rlpDecodeStrList` parses a top-level list whose items are all byte
strings — exactly the shape produced by `BlockHeader#raw()`; any other
input (including a top-level string, on which `fromRLPSerializedHeader`
throws `'Must be array'`) yields `none`. -/

def rlpEncodeStr (s : List Nat) : List Nat :=
  if s.length = 1 ∧ s.headI < 0x80 then s
  else if s.length ≤ 55 then (0x80 + s.length) :: s
  else (0xb7 + (natToBE s.length).length) :: (natToBE s.length ++ s)

def rlpEncodeList (items : List (List Nat)) : List Nat :=
  let payload := (items.map rlpEncodeStr).flatten
  if payload.length ≤ 55 then (0xc0 + payload.length) :: payload
  else (0xf7 + (natToBE payload.length).length) :: (natToBE payload.length ++ payload)

/-- Parse one RLP byte-string item; returns the item and the remainder. -/
def parseRlpStr (input : List Nat) : Option (List Nat × List Nat) :=
  match input with
  | [] => none
  | b :: rest =>
    if b < 0x80 then some ([b], rest)
    else if b ≤ 0xb7 then
      let len := b - 0x80
      if len ≤ rest.length then some (rest.take len, rest.drop len) else none
    else if b ≤ 0xbf then
      let ll := b - 0xb7
      if ll ≤ rest.length then
        let len := beToNat (rest.take ll)
        let rest2 := rest.drop ll
        if len ≤ rest2.length then some (rest2.take len, rest2.drop len) else none
      else none
    else none

/-- Parse a run of consecutive RLP byte-string items covering the whole
input.  The fuel bounds the number of items (the input length always
suffices since every item consumes at least one byte). -/
def parseRlpStrs : Nat → List Nat → Option (List (List Nat))
  | _, [] => some []
  | 0, _ :: _ => none
  | fuel + 1, b :: rest =>
    match parseRlpStr (b :: rest) with
    | none => none
    | some (s, rem) =>
      match parseRlpStrs fuel rem with
      | none => none
      | some ss => some (s :: ss)

/-- Decode a top-level RLP list of byte strings, requiring the payload to
span the input exactly (the real decoder throws on a remainder). -/
def rlpDecodeStrList (input : List Nat) : Option (List (List Nat)) :=
  match input with
  | [] => none
  | b :: rest =>
    if b < 0xc0 then none
    else if b ≤ 0xf7 then
      if rest.length = b - 0xc0 then parseRlpStrs rest.length rest else none
    else
      let ll := b - 0xf7
      if ll ≤ rest.length then
        let len := beToNat (rest.take ll)
        let rest2 := rest.drop ll
        if rest2.length = len then parseRlpStrs rest2.length rest2 else none
      else none

/-! ## Construction (`new BlockHeader(...)`) -/

/-- Construction-time errors thrown by the `BlockHeader` constructor and
factory methods.  `invalidFieldLength f n` models the message
`'{f} must be ... bytes, received {n} bytes'`. -/
inductive HErr
  | invalidFieldLength (field : String) (received : Nat)
  | invalidDAOExtraData
  | moreValuesThanExpected
  | invalidAddressLength
  | malformedInput
deriving DecidableEq, Repr

/-- `_validateHeaderFields`: width checks on exactly six fields, in
source order. -/
def validateHeaderFields (h : BlockHeader) : Except HErr Unit :=
  if h.parentHash.length ≠ 32 then
    .error (.invalidFieldLength "parentHash" h.parentHash.length)
  else if h.stateRoot.length ≠ 32 then
    .error (.invalidFieldLength "stateRoot" h.stateRoot.length)
  else if h.transactionsTrie.length ≠ 32 then
    .error (.invalidFieldLength "transactionsTrie" h.transactionsTrie.length)
  else if h.receiptTrie.length ≠ 32 then
    .error (.invalidFieldLength "receiptTrie" h.receiptTrie.length)
  else if h.mixHash.length ≠ 32 then
    .error (.invalidFieldLength "mixHash" h.mixHash.length)
  else if h.nonce.length ≠ 8 then
    .error (.invalidFieldLength "nonce" h.nonce.length)
  else .ok ()

/-- `_checkDAOExtraData`: for the ten blocks starting at the DAO
activation block (when the `dao` fork is active on the chain),
`extraData` must equal the `'dao-hard-fork'` marker. -/
def checkDAOExtraData (c : Common) (h : BlockHeader) : Except HErr Unit :=
  if c.daoActiveOnChain then
    if c.daoHardforkBlock ≤ h.number then
      if h.number - c.daoHardforkBlock ≤ 9 then
        if h.extraData ≠ DAO_ExtraData then .error .invalidDAOExtraData else .ok ()
      else .ok ()
    else .ok ()
  else .ok ()

/-- The `BlockHeader` constructor on the paths the claims exercise:
assigns the fields, then runs `_validateHeaderFields` and
`_checkDAOExtraData`.  The `initWithGenesisHeader`,
`hardforkByBlockNumber` and `calcDifficultyFromHeader` options are not
modelled (no claim sets them); `options.common` is the `c` argument. -/
def mkBlockHeader (c : Common)
    (parentHash uncleHash coinbase stateRoot transactionsTrie receiptTrie
      bloom : List Nat)
    (difficulty number gasLimit gasUsed timestamp : Nat)
    (extraData mixHash nonce : List Nat) : Except HErr BlockHeader :=
  let h : BlockHeader :=
    { parentHash := parentHash, uncleHash := uncleHash, coinbase := coinbase,
      stateRoot := stateRoot, transactionsTrie := transactionsTrie,
      receiptTrie := receiptTrie, bloom := bloom, difficulty := difficulty,
      number := number, gasLimit := gasLimit, gasUsed := gasUsed,
      timestamp := timestamp, extraData := extraData, mixHash := mixHash,
      nonce := nonce }
  do
    validateHeaderFields h
    checkDAOExtraData c h
    pure h

/-- `BlockHeader.fromValuesArray`: positional interpretation of up to 15
values.  Missing trailing values become empty buffers
(`toBuffer(undefined)` in `ethereumjs-util` is the empty buffer), and
numeric positions are read as big-endian (`new BN(toBuffer(v))`).  The
`Address` constructor applied to the coinbase value is external code
that asserts a 20-byte input. -/
def fromValuesArray (c : Common) (values : List (List Nat)) :
    Except HErr BlockHeader :=
  if values.length > 15 then .error .moreValuesThanExpected
  else
    let coinbase := values.getD 2 []
    if coinbase.length ≠ 20 then .error .invalidAddressLength
    else
      mkBlockHeader c
        (values.getD 0 []) (values.getD 1 []) coinbase
        (values.getD 3 []) (values.getD 4 []) (values.getD 5 [])
        (values.getD 6 [])
        (beToNat (values.getD 7 [])) (beToNat (values.getD 8 []))
        (beToNat (values.getD 9 [])) (beToNat (values.getD 10 []))
        (beToNat (values.getD 11 []))
        (values.getD 12 []) (values.getD 13 []) (values.getD 14 [])

/-- `BlockHeader.fromRLPSerializedHeader`: RLP-decode, require a
top-level array, delegate to `fromValuesArray`.  A malformed encoding
and a non-array top level both map to `malformedInput`. -/
def fromRLPSerializedHeader (c : Common) (serialized : List Nat) :
    Except HErr BlockHeader :=
  match rlpDecodeStrList serialized with
  | none => .error .malformedInput
  | some values => fromValuesArray c values

/-! ## raw / serialize / hash -/

/-- `raw()`: the 15-element positional sequence, numeric fields as
minimal big-endian (`unpadBuffer(toBuffer(bn))`). -/
def raw (h : BlockHeader) : List (List Nat) :=
  [h.parentHash, h.uncleHash, h.coinbase, h.stateRoot, h.transactionsTrie,
   h.receiptTrie, h.bloom, natToBE h.difficulty, natToBE h.number,
   natToBE h.gasLimit, natToBE h.gasUsed, natToBE h.timestamp,
   h.extraData, h.mixHash, h.nonce]

/-- `serialize()`: the RLP encoding of `raw()`. -/
def serialize (h : BlockHeader) : List Nat :=
  rlpEncodeList (raw h)

def isGenesis (h : BlockHeader) : Bool :=
  h.number == 0

/-- `hash()`, with keccak256 (external cryptography) passed in as a
function parameter: keccak256 of the RLP of `raw()`, except that a
non-genesis header on a clique chain replaces element 12 by
`extraData.slice(0, extraData.length - CLIQUE_EXTRA_SEAL)`.  (For a
clique header `extraData` is at least 97 bytes, so the `slice` end
index is non-negative and equals `List.take`.) -/
def hashWith (keccak : List Nat → List Nat) (c : Common) (h : BlockHeader) :
    List Nat :=
  let r := raw h
  let r2 :=
    if c.consensusAlgorithm == "clique" && !(isGenesis h) then
      r.set 12 (h.extraData.take (h.extraData.length - CLIQUE_EXTRA_SEAL))
    else r
  keccak (rlpEncodeList r2)

/-! ## Difficulty -/

/-- `canonicalDifficulty(parent)`.  `BN#idivn` truncates toward zero
(`Int.tdiv`); `num` is clamped at zero after the bomb delay, which is
`Nat` truncated subtraction. -/
def canonicalDifficulty (c : Common) (self parent : BlockHeader) :
    Except String Int :=
  if c.consensusType ≠ "pow" then
    .error "difficulty calculation is only supported on PoW chains"
  else if c.consensusAlgorithm ≠ "ethash" then
    .error "difficulty calculation currently only supports the ethash algorithm"
  else
    let hardfork := c.resolvedHardfork
    let blockTs : Int := self.timestamp
    let parentTs : Int := parent.timestamp
    let parentDif : Int := parent.difficulty
    let minimumDifficulty : Int := c.minimumDifficulty hardfork
    let offset : Int :=
      ((parent.difficulty / c.difficultyBoundDivisor hardfork : Nat) : Int)
    let num : Nat :=
      if hardforkGteHardfork hardfork .muirGlacier then self.number - 9000000
      else if hardforkGteHardfork hardfork .constantinople then
        self.number - 5000000
      else if hardforkGteHardfork hardfork .byzantium then
        self.number - 3000000
      else self.number
    let dif : Int :=
      if hardforkGteHardfork hardfork .byzantium then
        let uncleAddend : Int :=
          if parent.uncleHash = KECCAK256_RLP_ARRAY then 1 else 2
        let a0 : Int := uncleAddend - Int.tdiv (blockTs - parentTs) 9
        let a : Int := if (-99 : Int) > a0 then -99 else a0
        parentDif + offset * a
      else if hardforkGteHardfork hardfork .homestead then
        let a0 : Int := 1 - Int.tdiv (blockTs - parentTs) 10
        let a : Int := if (-99 : Int) > a0 then -99 else a0
        parentDif + offset * a
      else
        if parentTs + (c.durationLimit hardfork : Int) > blockTs then
          offset + parentDif
        else parentDif - offset
    let e : Int := (num / 100000 : Nat) - 2
    let dif2 : Int := if 0 ≤ e then dif + 2 ^ e.toNat else dif
    .ok (if dif2 < minimumDifficulty then minimumDifficulty else dif2)

/-- `validateDifficulty(parent)`. -/
def validateDifficulty (c : Common) (self parent : BlockHeader) :
    Except String Bool :=
  if c.consensusType ≠ "pow" then
    .error "difficulty validation is currently only supported on PoW chains"
  else
    (canonicalDifficulty c self parent).map
      (fun d => d == (self.difficulty : Int))

/-! ## Gas limit and validate -/

/-- `validateGasLimit(parent)`: strict bounds around the parent gas
limit plus the hardfork minimum. -/
def validateGasLimit (c : Common) (self parent : BlockHeader) : Bool :=
  let a := parent.gasLimit / c.gasLimitBoundDivisor c.resolvedHardfork
  let maxGasLimit := parent.gasLimit + a
  let minGasLimit := parent.gasLimit - a
  decide (self.gasLimit < maxGasLimit) &&
  decide (minGasLimit < self.gasLimit) &&
  decide (c.minGasLimit c.resolvedHardfork ≤ self.gasLimit)

/-- Errors thrown by `validate` (spec §7), one constructor per distinct
throw site; `difficultyComputationError` carries an error propagated
out of `canonicalDifficulty`. -/
inductive VErr
  | extraDataTooLong
  | cliqueExtraDataLength
  | cliqueSignerListLength
  | cliqueCoinbaseNonZero
  | cliqueMixHashNonZero
  | missingParent
  | invalidNumber
  | invalidTimestamp
  | invalidCliquePeriod
  | invalidDifficulty
  | invalidGasLimit
  | invalidUncleDistance
  | difficultyComputationError (msg : String)
deriving DecidableEq, Repr

/-- `cliqueIsEpochTransition()`: block number has no remainder modulo
the configured epoch length (clique only; the `_requireClique` guard is
satisfied at its call site inside `validate`). -/
def cliqueIsEpochTransition (c : Common) (h : BlockHeader) : Bool :=
  h.number % c.consensusEpoch == 0

/-- The extra-data / clique-format section of `validate` (source lines
between the genesis early-return and the parent lookup).  On clique the
signer-list length is computed in JavaScript signed arithmetic
(`extraData.length - minLength` can be negative, and `%` is `Int.tmod`),
and the mixHash-zero check sits after the epoch/non-epoch split, so it
applies to every clique header reaching this code. -/
def checkExtraData (c : Common) (h : BlockHeader) : Except VErr Unit :=
  if c.consensusAlgorithm ≠ "clique" then
    if h.extraData.length > c.maxExtraDataSize c.resolvedHardfork then
      .error .extraDataTooLong
    else .ok ()
  else
    let minLength := CLIQUE_EXTRA_VANITY + CLIQUE_EXTRA_SEAL
    let firstCheck : Except VErr Unit :=
      if !(cliqueIsEpochTransition c h) then
        if h.extraData.length ≠ minLength then .error .cliqueExtraDataLength
        else .ok ()
      else
        let signerLength : Int := (h.extraData.length : Int) - minLength
        if Int.tmod signerLength 20 ≠ 0 then .error .cliqueSignerListLength
        else if h.coinbase ≠ List.replicate 20 0 then
          .error .cliqueCoinbaseNonZero
        else .ok ()
    do
      firstCheck
      if h.mixHash ≠ List.replicate 32 0 then .error .cliqueMixHashNonZero
      else .ok ()

/-- The PoW difficulty check inside `validate`: when the consensus type
is `pow`, `validateDifficulty(parentHeader)` must hold (an error thrown
by the difficulty computation propagates). -/
def checkDifficultyStep (c : Common) (h parent : BlockHeader) :
    Except VErr Unit :=
  if c.consensusType = "pow" then
    match validateDifficulty c h parent with
    | .error m => .error (.difficultyComputationError m)
    | .ok true => .ok ()
    | .ok false => .error .invalidDifficulty
  else .ok ()

/-- The gas-limit check inside `validate`. -/
def checkGasStep (c : Common) (h parent : BlockHeader) : Except VErr Unit :=
  if validateGasLimit c h parent then .ok () else .error .invalidGasLimit

/-- The uncle-distance check inside `validate`: runs whenever a height
is supplied (any supplied `BN` is truthy, even zero); `height -
parent.number` is `BN` arithmetic that can go negative, hence `Int`. -/
def checkUncleStep (parent : BlockHeader) (height : Option Nat) :
    Except VErr Unit :=
  match height with
  | some ht =>
    let dif : Int := (ht : Int) - parent.number
    if dif < 8 ∧ 1 < dif then .ok () else .error .invalidUncleDistance
  | none => .ok ()

/-- The tail of `validate` after the format section: parent lookup,
number, timestamp, clique period, then PoW difficulty, gas limit, and
the optional uncle-distance check in source order.  `parentLookup`
models the result of `_getHeaderByHash` on `this.parentHash`. -/
def validateAgainstParent (c : Common) (h : BlockHeader)
    (parentLookup : Option BlockHeader) (height : Option Nat) :
    Except VErr Unit :=
  match parentLookup with
  | none => .error .missingParent
  | some parent =>
    if h.number ≠ parent.number + 1 then .error .invalidNumber
    else if h.timestamp ≤ parent.timestamp then .error .invalidTimestamp
    else if c.consensusAlgorithm == "clique" &&
        decide (h.timestamp < parent.timestamp + c.consensusPeriod) then
      .error .invalidCliquePeriod
    else do
      checkDifficultyStep c h parent
      checkGasStep c h parent
      checkUncleStep parent height

/-- `validate(blockchain, height?)`: genesis returns immediately; then
the format section, then the parent-relative checks. -/
def validate (c : Common) (h : BlockHeader)
    (parentLookup : Option BlockHeader) (height : Option Nat) :
    Except VErr Unit :=
  if isGenesis h then .ok ()
  else do
    checkExtraData c h
    validateAgainstParent c h parentLookup height

/-! ## RlpxServer: error routing, peer registry, stop -/

/-- The peer record constructed in the `peer:added` handler
(`RlpxPeer`). -/
structure RPeer where
  id : String
  host : String
  port : Nat
  inbound : Bool
deriving DecidableEq, Repr

/-- The eleven alternatives of the `ignoredErrors` regular expression,
in source order (none contains a regex metacharacter, so the regex test
is substring containment of one of them). -/
def ignoredErrorPatterns : List String :=
  ["EPIPE",
   "ECONNRESET",
   "ETIMEDOUT",
   "NetworkId mismatch",
   "Timeout error: ping",
   "Genesis block mismatch",
   "Handshake timed out",
   "Invalid address buffer",
   "Invalid MAC",
   "Invalid timestamp buffer",
   "Hash verification failed"]

/-- `needle` occurs at the start of `hay`. -/
def charsStartWith : List Char → List Char → Bool
  | [], _ => true
  | _ :: _, [] => false
  | a :: as, b :: bs => a == b && charsStartWith as bs

/-- `needle` occurs somewhere inside `hay` (what `RegExp#test` does for
an alternation of literal patterns). -/
def charsContain : List Char → List Char → Bool
  | needle, [] => charsStartWith needle []
  | needle, b :: bs => charsStartWith needle (b :: bs) || charsContain needle bs

/-- `ignoredErrors.test(message)`. -/
def ignoredErrorsTest (message : String) : Bool :=
  ignoredErrorPatterns.any (fun p => charsContain p.data message.data)

/-- Where `RlpxServer.error` routed the error, if anywhere. -/
inductive ErrEmit
  | silent
  | toPeer (p : RPeer) (msg : String)
  | toServer (msg : String)
deriving DecidableEq, Repr

/-- `RlpxServer.error(error, peer?)`: return early on an ignored
message, else emit `'error'` on the peer when given, else on the
server. -/
def serverError (message : String) (peer : Option RPeer) : ErrEmit :=
  if ignoredErrorsTest message then .silent
  else
    match peer with
    | some p => .toPeer p message
    | none => .toServer message

/-- An argument passed to an `emit` call. -/
inductive EmitArg
  | peerRecord (p : RPeer)
  | disconnectReason (r : Nat)
deriving DecidableEq, Repr

/-- The peer map `this.peers : Map<string, RlpxPeer>` as an association
list with unique keys. -/
def lookupPeer (peers : List (String × RPeer)) (id : String) : Option RPeer :=
  (peers.find? (fun e => e.1 == id)).map (·.2)

def removePeer (peers : List (String × RPeer)) (id : String) :
    List (String × RPeer) :=
  peers.filter (fun e => e.1 != id)

/-- The `peer:removed` handler: look up the session's hex id; when
present, delete the record (by the record's own `id`) and emit
`'disconnected'` — with the peer record as the only argument (the
disconnect reason goes only to the debug log).  When absent, do
nothing. -/
def peerRemovedHandler (peers : List (String × RPeer)) (sessionIdHex : String)
    (reason : Nat) :
    List (String × RPeer) × List (String × List EmitArg) :=
  match lookupPeer peers sessionIdHex with
  | some peer =>
    (removePeer peers peer.id, [("disconnected", [EmitArg.peerRecord peer])])
  | none => (peers, [])

/-- The server fields `stop` touches.  The base `Server.stop` (in
`server.ts`, outside this source file) only toggles its own `started`
bookkeeping, which the `RlpxServer.stop` body overwrites; it is
modelled as a no-op on these fields (spec §3: `started` transitions
true → false on successful `stop`). -/
structure SrvState where
  started : Bool
  rlpxDestroyed : Bool
  dptDestroyed : Bool
deriving DecidableEq, Repr

/-- `RlpxServer.stop()`: when started, destroy the rlpx and dpt
instances, run the base-class stop, set `started` to false — and then
return `this.started`; when not started, skip the body and return
`this.started` unchanged. -/
def stopServer (s : SrvState) : Bool × SrvState :=
  if s.started then
    let s1 : SrvState := { s with rlpxDestroyed := true, dptDestroyed := true }
    let s2 : SrvState := { s1 with started := false }
    (s2.started, s2)
  else (s.started, s)

/-! ## Concrete instances used by witnesses and counterexamples -/

def zeros (n : Nat) : List Nat := List.replicate n 0

/-- A mainnet-like PoW/ethash chain resolved at `byzantium`
(parameter values from the mainnet chain file). -/
def byzCommon : Common where
  consensusType := "pow"
  consensusAlgorithm := "ethash"
  resolvedHardfork := .byzantium
  minimumDifficulty := fun _ => 131072
  difficultyBoundDivisor := fun _ => 2048
  durationLimit := fun _ => 13
  gasLimitBoundDivisor := fun _ => 1024
  minGasLimit := fun _ => 5000
  maxExtraDataSize := fun _ => 32
  consensusPeriod := 0
  consensusEpoch := 30000
  daoActiveOnChain := false
  daoHardforkBlock := 0

/-- A goerli-like PoA/clique chain (`period` 15, `epoch` 30000). -/
def cliqueCommon : Common where
  consensusType := "poa"
  consensusAlgorithm := "clique"
  resolvedHardfork := .istanbul
  minimumDifficulty := fun _ => 131072
  difficultyBoundDivisor := fun _ => 2048
  durationLimit := fun _ => 13
  gasLimitBoundDivisor := fun _ => 1024
  minGasLimit := fun _ => 5000
  maxExtraDataSize := fun _ => 32
  consensusPeriod := 15
  consensusEpoch := 30000
  daoActiveOnChain := false
  daoHardforkBlock := 0

/-- Mainnet with the `dao` hardfork active at block 1,920,000. -/
def daoCommon : Common where
  consensusType := "pow"
  consensusAlgorithm := "ethash"
  resolvedHardfork := .dao
  minimumDifficulty := fun _ => 131072
  difficultyBoundDivisor := fun _ => 2048
  durationLimit := fun _ => 13
  gasLimitBoundDivisor := fun _ => 1024
  minGasLimit := fun _ => 5000
  maxExtraDataSize := fun _ => 32
  consensusPeriod := 0
  consensusEpoch := 30000
  daoActiveOnChain := true
  daoHardforkBlock := 1920000

/-- Parent of scenario S1: difficulty 10^12, timestamp 10^6, empty
uncle list, number 4,999,999. -/
def parentS1 : BlockHeader where
  parentHash := zeros 32
  uncleHash := KECCAK256_RLP_ARRAY
  coinbase := zeros 20
  stateRoot := zeros 32
  transactionsTrie := zeros 32
  receiptTrie := zeros 32
  bloom := zeros 256
  difficulty := 1000000000000
  number := 4999999
  gasLimit := 8000000
  gasUsed := 0
  timestamp := 1000000
  extraData := []
  mixHash := zeros 32
  nonce := zeros 8

/-- Scenario S1 header: number 5,000,000, timestamp 1,000,009, the
expected byzantium difficulty 1,000,000,262,144. -/
def headerS1 : BlockHeader where
  parentHash := zeros 32
  uncleHash := KECCAK256_RLP_ARRAY
  coinbase := zeros 20
  stateRoot := zeros 32
  transactionsTrie := zeros 32
  receiptTrie := zeros 32
  bloom := zeros 256
  difficulty := 1000000262144
  number := 5000000
  gasLimit := 8000000
  gasUsed := 0
  timestamp := 1000009
  extraData := []
  mixHash := zeros 32
  nonce := zeros 8

/-- A clique genesis-like parent (number 0). -/
def cliqueParent : BlockHeader where
  parentHash := zeros 32
  uncleHash := KECCAK256_RLP_ARRAY
  coinbase := zeros 20
  stateRoot := zeros 32
  transactionsTrie := zeros 32
  receiptTrie := zeros 32
  bloom := zeros 256
  difficulty := 1
  number := 0
  gasLimit := 10000
  gasUsed := 0
  timestamp := 0
  extraData := zeros 97
  mixHash := zeros 32
  nonce := zeros 8

/-- A non-epoch-transition clique header (number 1) with the required
97-byte extraData but a nonzero mixHash. -/
def cliqueHeaderBadMix : BlockHeader where
  parentHash := zeros 32
  uncleHash := KECCAK256_RLP_ARRAY
  coinbase := zeros 20
  stateRoot := zeros 32
  transactionsTrie := zeros 32
  receiptTrie := zeros 32
  bloom := zeros 256
  difficulty := 1
  number := 1
  gasLimit := 10000
  gasUsed := 0
  timestamp := 15
  extraData := zeros 97
  mixHash := 1 :: zeros 31
  nonce := zeros 8

/-- An epoch-transition clique header (number 30,000): two 20-byte
signer slots in extraData, zero coinbase, nonzero mixHash. -/
def cliqueEpochBadMix : BlockHeader where
  parentHash := zeros 32
  uncleHash := KECCAK256_RLP_ARRAY
  coinbase := zeros 20
  stateRoot := zeros 32
  transactionsTrie := zeros 32
  receiptTrie := zeros 32
  bloom := zeros 256
  difficulty := 1
  number := 30000
  gasLimit := 10000
  gasUsed := 0
  timestamp := 450000
  extraData := zeros 137
  mixHash := 2 :: zeros 31
  nonce := zeros 8

/-- A non-epoch-transition clique header (number 1) with a 96-byte
extraData (one byte short of vanity + seal). -/
def cliqueShortExtra : BlockHeader where
  parentHash := zeros 32
  uncleHash := KECCAK256_RLP_ARRAY
  coinbase := zeros 20
  stateRoot := zeros 32
  transactionsTrie := zeros 32
  receiptTrie := zeros 32
  bloom := zeros 256
  difficulty := 1
  number := 1
  gasLimit := 10000
  gasUsed := 0
  timestamp := 15
  extraData := zeros 96
  mixHash := zeros 32
  nonce := zeros 8

/-- An epoch-transition clique header (number 30,000) whose signer-list
bytes (130 − 97 = 33) are not divisible by 20. -/
def cliqueEpochBadSigners : BlockHeader where
  parentHash := zeros 32
  uncleHash := KECCAK256_RLP_ARRAY
  coinbase := zeros 20
  stateRoot := zeros 32
  transactionsTrie := zeros 32
  receiptTrie := zeros 32
  bloom := zeros 256
  difficulty := 1
  number := 30000
  gasLimit := 10000
  gasUsed := 0
  timestamp := 450000
  extraData := zeros 130
  mixHash := zeros 32
  nonce := zeros 8

/-- An epoch-transition clique header (number 30,000) with a valid
signer list but a nonzero coinbase. -/
def cliqueEpochBadCoinbase : BlockHeader where
  parentHash := zeros 32
  uncleHash := KECCAK256_RLP_ARRAY
  coinbase := 1 :: zeros 19
  stateRoot := zeros 32
  transactionsTrie := zeros 32
  receiptTrie := zeros 32
  bloom := zeros 256
  difficulty := 1
  number := 30000
  gasLimit := 10000
  gasUsed := 0
  timestamp := 450000
  extraData := zeros 137
  mixHash := zeros 32
  nonce := zeros 8

/-- The scenario-S4 header used for the RLP round trip: difficulty 1,
number 2, the default gas limit, zero gasUsed and timestamp. -/
def headerS4 : BlockHeader where
  parentHash := zeros 32
  uncleHash := KECCAK256_RLP_ARRAY
  coinbase := zeros 20
  stateRoot := zeros 32
  transactionsTrie := zeros 32
  receiptTrie := zeros 32
  bloom := zeros 256
  difficulty := 1
  number := 2
  gasLimit := 0xffffffffffffff
  gasUsed := 0
  timestamp := 0
  extraData := []
  mixHash := zeros 32
  nonce := zeros 8

/-- A header inside the DAO force-extraData range (number 1,920,005)
whose extraData is not the `'dao-hard-fork'` marker. -/
def daoHeaderBad : BlockHeader where
  parentHash := zeros 32
  uncleHash := KECCAK256_RLP_ARRAY
  coinbase := zeros 20
  stateRoot := zeros 32
  transactionsTrie := zeros 32
  receiptTrie := zeros 32
  bloom := zeros 256
  difficulty := 131072
  number := 1920005
  gasLimit := 5000
  gasUsed := 0
  timestamp := 0
  extraData := [0]
  mixHash := zeros 32
  nonce := zeros 8

/-- A peer record for the registry examples. -/
def peerA : RPeer where
  id := "ab"
  host := "127.0.0.1"
  port := 30303
  inbound := false

/-! ## Helper lemmas -/

theorem ite_gt_max (a b : Int) : (if a > b then a else b) = max a b := by
  rw [max_def]; split_ifs <;> omega

theorem ite_clamp_max (m d : Int) : (if d < m then m else d) = max m d := by
  rw [max_def]; split_ifs <;> omega

theorem ite_add_pull (cnd : Prop) [Decidable cnd] (x t : Int) :
    (if cnd then x + t else x) = x + (if cnd then t else 0) := by
  split_ifs <;> simp

theorem lookupPeer_removePeer_self (m : List (String × RPeer)) (id : String) :
    lookupPeer (removePeer m id) id = none := by
  induction m with
  | nil => rfl
  | cons a t ih =>
    by_cases hk : a.1 = id
    · rw [show removePeer (a :: t) id = removePeer t id from by
        simp [removePeer, List.filter_cons, hk]]
      exact ih
    · rw [show removePeer (a :: t) id = a :: removePeer t id from by
        simp [removePeer, List.filter_cons, hk]]
      simp only [lookupPeer] at ih ⊢
      rw [List.find?_cons_of_neg _ (by simp [hk])]
      exact ih

/-- `mkBlockHeader` applied to the fields of an existing header runs the
two construction-time checks on that header (structure eta). -/
theorem mkBlockHeader_run (c : Common) (h : BlockHeader) :
    mkBlockHeader c h.parentHash h.uncleHash h.coinbase h.stateRoot
      h.transactionsTrie h.receiptTrie h.bloom h.difficulty h.number h.gasLimit
      h.gasUsed h.timestamp h.extraData h.mixHash h.nonce =
      (do
        validateHeaderFields h
        checkDAOExtraData c h
        pure h) := rfl

theorem checkDAO_error_iff (c : Common) (h : BlockHeader) :
    checkDAOExtraData c h = .error HErr.invalidDAOExtraData ↔
    (c.daoActiveOnChain = true ∧ c.daoHardforkBlock ≤ h.number ∧
     h.number - c.daoHardforkBlock ≤ 9 ∧ h.extraData ≠ DAO_ExtraData) := by
  unfold checkDAOExtraData
  split_ifs <;> simp_all

theorem checkDAO_cases (c : Common) (h : BlockHeader) :
    checkDAOExtraData c h = .ok () ∨
    checkDAOExtraData c h = .error HErr.invalidDAOExtraData := by
  unfold checkDAOExtraData
  split_ifs <;> simp

/-! ## Claim C10 -/

/-- C10: `RlpxServer.stop()` resolves to `false` on every call: when not
started, it returns the (false) `started` flag without side effects;
when started, it destroys the rlpx and dpt instances, clears `started`,
and returns the now-false flag — so it never resolves to `true`. -/
theorem c10_stop_always_false (s : SrvState) :
    stopServer s =
      (false,
        if s.started then
          { started := false, rlpxDestroyed := true, dptDestroyed := true }
        else s) := by
  obtain ⟨st, rd, dd⟩ := s
  cases st <;> simp [stopServer]

/-! ## Claim C8 -/

/-- C8: `RlpxServer.error(e, peer?)` emits nothing iff the message
matches one of the eleven ignored patterns (as a substring); otherwise
it emits `'error'` on the supplied peer when one is given, else on the
server itself. -/
theorem c8_error_routing (msg : String) (peer : Option RPeer) :
    (serverError msg peer = ErrEmit.silent ↔
      ∃ pat ∈ ["EPIPE", "ECONNRESET", "ETIMEDOUT", "NetworkId mismatch",
        "Timeout error: ping", "Genesis block mismatch", "Handshake timed out",
        "Invalid address buffer", "Invalid MAC", "Invalid timestamp buffer",
        "Hash verification failed"],
        charsContain pat.data msg.data = true) ∧
    (ignoredErrorsTest msg = false →
      serverError msg peer =
        match peer with
        | some p => ErrEmit.toPeer p msg
        | none => ErrEmit.toServer msg) := by
  have hig : ignoredErrorsTest msg = true ↔
      ∃ pat ∈ ["EPIPE", "ECONNRESET", "ETIMEDOUT", "NetworkId mismatch",
        "Timeout error: ping", "Genesis block mismatch", "Handshake timed out",
        "Invalid address buffer", "Invalid MAC", "Invalid timestamp buffer",
        "Hash verification failed"],
        charsContain pat.data msg.data = true := by
    simp [ignoredErrorsTest, ignoredErrorPatterns, List.any_eq_true]
  constructor
  · rw [← hig]
    unfold serverError
    by_cases hb : ignoredErrorsTest msg
    · simp [hb]
    · simp [hb]
      cases peer <;> simp
  · intro hb
    unfold serverError
    rw [if_neg (by simp [hb])]

/-- C8 witness: `ECONNRESET` inside a message is silently dropped, and
the unmatched message `"unexpected"` with no peer goes to the server
sink. -/
theorem c8_error_routing_witness :
    serverError "read ECONNRESET by peer" (some peerA) = ErrEmit.silent ∧
    serverError "unexpected" none = ErrEmit.toServer "unexpected" :=
  ⟨(c8_error_routing "read ECONNRESET by peer" (some peerA)).1.mpr
      ⟨"ECONNRESET", by decide, by decide⟩,
   (c8_error_routing "unexpected" none).2 (by decide)⟩

/-! ## Claim C9 -/

/-- C9 counterexample: on a hit, the handler emits `'disconnected'`
with the peer record as the only argument — the claim's event carrying
both the record and the reason is not what is emitted. -/
theorem c9_counterexample :
    (peerRemovedHandler [("ab", peerA)] "ab" 4).2 =
      [("disconnected", [EmitArg.peerRecord peerA])] ∧
    ([("disconnected", [EmitArg.peerRecord peerA])] :
        List (String × List EmitArg)) ≠
      [("disconnected", [EmitArg.peerRecord peerA, EmitArg.disconnectReason 4])] := by
  constructor
  · rfl
  · decide

/-- C9 (amended): `peer:removed` with an id absent from the map is a
no-op; with a present id the record is removed from the map and a
`disconnected` event is emitted carrying the record (only). -/
theorem c9_peer_removed (m : List (String × RPeer)) (id : String) (r : Nat) :
    (lookupPeer m id = none → peerRemovedHandler m id r = (m, [])) ∧
    (∀ p, lookupPeer m id = some p →
      peerRemovedHandler m id r =
        (removePeer m p.id, [("disconnected", [EmitArg.peerRecord p])]) ∧
      (p.id = id → lookupPeer (peerRemovedHandler m id r).1 id = none)) := by
  constructor
  · intro hn
    simp [peerRemovedHandler, hn]
  · intro p hp
    refine ⟨by simp [peerRemovedHandler, hp], ?_⟩
    intro hid
    simp [peerRemovedHandler, hp, hid, lookupPeer_removePeer_self]

/-- C9 witness: removing the known id `"ab"` deletes the entry and
emits `disconnected` with the record. -/
theorem c9_peer_removed_witness :
    peerRemovedHandler [("ab", peerA)] "ab" 4 =
      (removePeer [("ab", peerA)] peerA.id,
       [("disconnected", [EmitArg.peerRecord peerA])]) :=
  ((c9_peer_removed [("ab", peerA)] "ab" 4).2 peerA (by decide)).1

/-! ## Claim C3 -/

/-- C3 counterexample: a 31-byte `uncleHash` passes construction — the
constructor checks only six of the fixed-width fields, so the claim's
nine-field rejection (and the all-widths postcondition) fails. -/
theorem c3_counterexample :
    mkBlockHeader byzCommon (zeros 32) (zeros 31) (zeros 20) (zeros 32)
      (zeros 32) (zeros 32) (zeros 256) 0 0 0 0 0 [] (zeros 32) (zeros 8) =
      Except.ok
        { parentHash := zeros 32, uncleHash := zeros 31, coinbase := zeros 20,
          stateRoot := zeros 32, transactionsTrie := zeros 32,
          receiptTrie := zeros 32, bloom := zeros 256, difficulty := 0,
          number := 0, gasLimit := 0, gasUsed := 0, timestamp := 0,
          extraData := [], mixHash := zeros 32, nonce := zeros 8 } ∧
    (zeros 31).length ≠ 32 := by
  constructor
  · rfl
  · decide

/-- C3 (amended): construction checks exactly six fixed-width fields —
parentHash, stateRoot, transactionsTrie, receiptTrie, mixHash (32
bytes) and nonce (8 bytes) — rejecting with an error naming the
offending field; uncleHash, coinbase and bloom widths are not checked
and pass through construction unchanged. -/
theorem c3_field_width_validation (c : Common) (h : BlockHeader) :
    (validateHeaderFields h = .ok () ↔
      (h.parentHash.length = 32 ∧ h.stateRoot.length = 32 ∧
       h.transactionsTrie.length = 32 ∧ h.receiptTrie.length = 32 ∧
       h.mixHash.length = 32 ∧ h.nonce.length = 8)) ∧
    (∀ e, validateHeaderFields h = .error e → ∃ n,
      e = HErr.invalidFieldLength "parentHash" n ∨
      e = HErr.invalidFieldLength "stateRoot" n ∨
      e = HErr.invalidFieldLength "transactionsTrie" n ∨
      e = HErr.invalidFieldLength "receiptTrie" n ∨
      e = HErr.invalidFieldLength "mixHash" n ∨
      e = HErr.invalidFieldLength "nonce" n) ∧
    (∀ hdr, mkBlockHeader c h.parentHash h.uncleHash h.coinbase h.stateRoot
        h.transactionsTrie h.receiptTrie h.bloom h.difficulty h.number
        h.gasLimit h.gasUsed h.timestamp h.extraData h.mixHash h.nonce =
        .ok hdr →
      hdr.uncleHash = h.uncleHash ∧ hdr.coinbase = h.coinbase ∧
      hdr.bloom = h.bloom) := by
  obtain ⟨f1, f2, f3, f4, f5, f6, f7, f8, f9, f10, f11, f12, f13, f14, f15⟩ := h
  refine ⟨?_, ?_, ?_⟩
  · unfold validateHeaderFields
    split_ifs <;> simp_all
  · intro e he
    unfold validateHeaderFields at he
    split_ifs at he
    · rw [Except.error.injEq] at he
      exact ⟨_, Or.inl he.symm⟩
    · rw [Except.error.injEq] at he
      exact ⟨_, Or.inr (Or.inl he.symm)⟩
    · rw [Except.error.injEq] at he
      exact ⟨_, Or.inr (Or.inr (Or.inl he.symm))⟩
    · rw [Except.error.injEq] at he
      exact ⟨_, Or.inr (Or.inr (Or.inr (Or.inl he.symm)))⟩
    · rw [Except.error.injEq] at he
      exact ⟨_, Or.inr (Or.inr (Or.inr (Or.inr (Or.inl he.symm))))⟩
    · rw [Except.error.injEq] at he
      exact ⟨_, Or.inr (Or.inr (Or.inr (Or.inr (Or.inr he.symm))))⟩
  · intro hdr hmk
    simp only [mkBlockHeader] at hmk
    rcases hv : validateHeaderFields
        { parentHash := f1, uncleHash := f2, coinbase := f3, stateRoot := f4,
          transactionsTrie := f5, receiptTrie := f6, bloom := f7,
          difficulty := f8, number := f9, gasLimit := f10, gasUsed := f11,
          timestamp := f12, extraData := f13, mixHash := f14, nonce := f15 }
      with e | u
    · rw [hv] at hmk
      simp [Bind.bind, Except.bind] at hmk
    · rw [hv] at hmk
      rcases checkDAO_cases c
          { parentHash := f1, uncleHash := f2, coinbase := f3, stateRoot := f4,
            transactionsTrie := f5, receiptTrie := f6, bloom := f7,
            difficulty := f8, number := f9, gasLimit := f10, gasUsed := f11,
            timestamp := f12, extraData := f13, mixHash := f14, nonce := f15 }
        with hd | hd <;> rw [hd] at hmk <;>
        simp [Bind.bind, Except.bind, pure, Except.pure] at hmk
      subst hmk
      exact ⟨rfl, rfl, rfl⟩

/-- C3 witness: the scenario-S4 header passes the six-field width
check. -/
theorem c3_field_width_validation_witness :
    validateHeaderFields headerS4 = .ok () :=
  (c3_field_width_validation byzCommon headerS4).1.mpr (by decide)

/-! ## Claim C6 -/

/-- C6: with the field widths valid, construction fails with
`InvalidDAOExtraData` iff the chain has `dao` active, the number lies in
the ten-block range starting at the activation block, and `extraData` is
not the `'dao-hard-fork'` marker; outside the range (or with `dao`
inactive) any extraData passes this check. -/
theorem c6_dao_extradata_gate (c : Common) (h : BlockHeader)
    (hv : validateHeaderFields h = .ok ()) :
    mkBlockHeader c h.parentHash h.uncleHash h.coinbase h.stateRoot
      h.transactionsTrie h.receiptTrie h.bloom h.difficulty h.number h.gasLimit
      h.gasUsed h.timestamp h.extraData h.mixHash h.nonce =
      .error HErr.invalidDAOExtraData ↔
    (c.daoActiveOnChain = true ∧ c.daoHardforkBlock ≤ h.number ∧
      h.number - c.daoHardforkBlock ≤ 9 ∧ h.extraData ≠ DAO_ExtraData) := by
  rw [mkBlockHeader_run c h, hv, ← checkDAO_error_iff c h]
  rcases checkDAO_cases c h with hd | hd <;> rw [hd] <;>
    simp [Bind.bind, Except.bind, pure, Except.pure]

/-- C6 witness: at number 1,920,005 on the DAO chain, a one-byte
extraData is rejected with `InvalidDAOExtraData`; moving to number
1,920,010 (outside the ten-block range) accepts it. -/
theorem c6_dao_extradata_gate_witness :
    (mkBlockHeader daoCommon daoHeaderBad.parentHash daoHeaderBad.uncleHash
      daoHeaderBad.coinbase daoHeaderBad.stateRoot daoHeaderBad.transactionsTrie
      daoHeaderBad.receiptTrie daoHeaderBad.bloom daoHeaderBad.difficulty
      daoHeaderBad.number daoHeaderBad.gasLimit daoHeaderBad.gasUsed
      daoHeaderBad.timestamp daoHeaderBad.extraData daoHeaderBad.mixHash
      daoHeaderBad.nonce = .error HErr.invalidDAOExtraData) ∧
    mkBlockHeader daoCommon (zeros 32) KECCAK256_RLP_ARRAY (zeros 20)
      (zeros 32) (zeros 32) (zeros 32) (zeros 256) 131072 1920010 5000 0 0
      [0] (zeros 32) (zeros 8) ≠ .error HErr.invalidDAOExtraData :=
  ⟨(c6_dao_extradata_gate daoCommon daoHeaderBad (by decide)).mpr (by decide),
   by decide⟩

/-! ## Error classification of the validate tail -/

theorem seq3_error_cases (x y z : Except VErr Unit) (e : VErr)
    (hx : (do x; y; z) = .error e) :
    x = .error e ∨ y = .error e ∨ z = .error e := by
  cases x with
  | error e0 =>
    left
    simp only [Bind.bind, Except.bind] at hx
    exact hx
  | ok u =>
    cases u
    right
    cases y with
    | error e1 =>
      left
      simp only [Bind.bind, Except.bind] at hx
      exact hx
    | ok v =>
      cases v
      right
      simpa only [Bind.bind, Except.bind] using hx

theorem checkDifficultyStep_errors (c : Common) (h parent : BlockHeader)
    (e : VErr) (he : checkDifficultyStep c h parent = .error e) :
    (∃ m, e = .difficultyComputationError m) ∨ e = .invalidDifficulty := by
  unfold checkDifficultyStep at he
  split_ifs at he
  cases hd : validateDifficulty c h parent with
  | error m =>
    rw [hd] at he
    rw [Except.error.injEq] at he
    exact Or.inl ⟨m, he.symm⟩
  | ok b =>
    rw [hd] at he
    cases b
    · rw [Except.error.injEq] at he
      exact Or.inr he.symm
    · exact absurd he (by simp)

theorem checkGasStep_errors (c : Common) (h parent : BlockHeader) (e : VErr)
    (he : checkGasStep c h parent = .error e) :
    e = .invalidGasLimit := by
  unfold checkGasStep at he
  split_ifs at he
  rw [Except.error.injEq] at he
  exact he.symm

theorem checkUncleStep_errors (parent : BlockHeader) (ht : Option Nat)
    (e : VErr) (he : checkUncleStep parent ht = .error e) :
    e = .invalidUncleDistance := by
  unfold checkUncleStep at he
  cases ht with
  | none => exact absurd he (by simp)
  | some x =>
    simp only at he
    split_ifs at he
    rw [Except.error.injEq] at he
    exact he.symm

/-- Every error of the parent-relative tail of `validate` is one of the
parent/number/timestamp/period/difficulty/gas/uncle kinds — in
particular never one of the clique extra-data/mixHash format errors. -/
theorem vAP_error_kinds (c : Common) (h : BlockHeader)
    (p : Option BlockHeader) (ht : Option Nat) (e : VErr)
    (he : validateAgainstParent c h p ht = .error e) :
    e = .missingParent ∨ e = .invalidNumber ∨ e = .invalidTimestamp ∨
    e = .invalidCliquePeriod ∨ (∃ m, e = .difficultyComputationError m) ∨
    e = .invalidDifficulty ∨ e = .invalidGasLimit ∨
    e = .invalidUncleDistance := by
  unfold validateAgainstParent at he
  cases p with
  | none =>
    rw [Except.error.injEq] at he
    exact Or.inl he.symm
  | some parent =>
    simp only at he
    split_ifs at he
    · rw [Except.error.injEq] at he
      exact Or.inr (Or.inl he.symm)
    · rw [Except.error.injEq] at he
      exact Or.inr (Or.inr (Or.inl he.symm))
    · rw [Except.error.injEq] at he
      exact Or.inr (Or.inr (Or.inr (Or.inl he.symm)))
    · rcases seq3_error_cases _ _ _ _ he with h1 | h1 | h1
      · rcases checkDifficultyStep_errors c h parent e h1 with h2 | h2
        · exact Or.inr (Or.inr (Or.inr (Or.inr (Or.inl h2))))
        · exact Or.inr (Or.inr (Or.inr (Or.inr (Or.inr (Or.inl h2)))))
      · exact Or.inr (Or.inr (Or.inr (Or.inr (Or.inr (Or.inr
          (Or.inl (checkGasStep_errors c h parent e h1)))))))
      · exact Or.inr (Or.inr (Or.inr (Or.inr (Or.inr (Or.inr
          (Or.inr (checkUncleStep_errors parent ht e h1)))))))

/-! ## Claim C2 -/

/-- On a clique chain, the format section errors with the mixHash error
exactly when the length/signer-list/coinbase checks pass but the
mixHash is not 32 zero bytes — for epoch and non-epoch headers alike. -/
theorem checkExtraData_mixHash_iff (c : Common) (h : BlockHeader)
    (hclique : c.consensusAlgorithm = "clique") :
    checkExtraData c h = .error VErr.cliqueMixHashNonZero ↔
      ((if cliqueIsEpochTransition c h then
          Int.tmod ((h.extraData.length : Int) - 97) 20 = 0 ∧
            h.coinbase = List.replicate 20 0
        else h.extraData.length = 97) ∧
        h.mixHash ≠ List.replicate 32 0) := by
  unfold checkExtraData
  rw [if_neg (by simp [hclique])]
  simp only [CLIQUE_EXTRA_VANITY, CLIQUE_EXTRA_SEAL]
  split_ifs <;> simp_all [Bind.bind, Except.bind]

/-- On a clique chain, the format section errors with the
extraData-length error exactly on a non-epoch-transition header whose
extraData is not 97 bytes. -/
theorem checkExtraData_lenErr_iff (c : Common) (h : BlockHeader)
    (hclique : c.consensusAlgorithm = "clique") :
    checkExtraData c h = .error VErr.cliqueExtraDataLength ↔
      (cliqueIsEpochTransition c h = false ∧ h.extraData.length ≠ 97) := by
  unfold checkExtraData
  rw [if_neg (by simp [hclique])]
  simp only [CLIQUE_EXTRA_VANITY, CLIQUE_EXTRA_SEAL]
  split_ifs <;> simp_all [Bind.bind, Except.bind]

/-- On a clique chain, the format section errors with the signer-list
error exactly on an epoch-transition header whose signer-list length
(`len(extraData) − 97` in JavaScript signed arithmetic) is not
divisible by 20. -/
theorem checkExtraData_signerErr_iff (c : Common) (h : BlockHeader)
    (hclique : c.consensusAlgorithm = "clique") :
    checkExtraData c h = .error VErr.cliqueSignerListLength ↔
      (cliqueIsEpochTransition c h = true ∧
        Int.tmod ((h.extraData.length : Int) - 97) 20 ≠ 0) := by
  unfold checkExtraData
  rw [if_neg (by simp [hclique])]
  simp only [CLIQUE_EXTRA_VANITY, CLIQUE_EXTRA_SEAL]
  split_ifs <;> simp_all [Bind.bind, Except.bind]

/-- On a clique chain, the format section errors with the coinbase
error exactly on an epoch-transition header whose signer list is well
formed but whose coinbase is not the zero address. -/
theorem checkExtraData_coinbaseErr_iff (c : Common) (h : BlockHeader)
    (hclique : c.consensusAlgorithm = "clique") :
    checkExtraData c h = .error VErr.cliqueCoinbaseNonZero ↔
      (cliqueIsEpochTransition c h = true ∧
        Int.tmod ((h.extraData.length : Int) - 97) 20 = 0 ∧
        h.coinbase ≠ List.replicate 20 0) := by
  unfold checkExtraData
  rw [if_neg (by simp [hclique])]
  simp only [CLIQUE_EXTRA_VANITY, CLIQUE_EXTRA_SEAL]
  split_ifs <;> simp_all [Bind.bind, Except.bind]

/-- For a non-genesis header, `validate` fails with a clique format
error exactly when the format section does: the parent-relative tail
never produces one of these four error kinds. -/
theorem validate_format_error_iff (c : Common) (h : BlockHeader)
    (p : Option BlockHeader) (ht : Option Nat) (hng : isGenesis h = false)
    (e : VErr)
    (hfmt : e = VErr.cliqueExtraDataLength ∨ e = VErr.cliqueSignerListLength ∨
      e = VErr.cliqueCoinbaseNonZero ∨ e = VErr.cliqueMixHashNonZero) :
    validate c h p ht = .error e ↔ checkExtraData c h = .error e := by
  unfold validate
  rw [if_neg (by simp [hng])]
  cases hce : checkExtraData c h with
  | error e0 =>
    simp [Bind.bind, Except.bind]
  | ok u =>
    cases u
    simp only [Bind.bind, Except.bind]
    constructor
    · intro hv
      exfalso
      rcases vAP_error_kinds c h p ht _ hv with h1 | h1 | h1 | h1 | ⟨m, h1⟩ |
        h1 | h1 | h1 <;> rcases hfmt with h2 | h2 | h2 | h2 <;> simp_all
    · intro hv
      exact absurd hv (by simp)

set_option maxRecDepth 16384 in
/-- C2 counterexample: a non-epoch-transition clique header with the
required 97-byte extraData is nonetheless rejected for its nonzero
mixHash — the claim's "not rejected for a nonzero mixHash" fails. -/
theorem c2_counterexample :
    cliqueIsEpochTransition cliqueCommon cliqueHeaderBadMix = false ∧
    cliqueHeaderBadMix.extraData.length = 97 ∧
    validate cliqueCommon cliqueHeaderBadMix (some cliqueParent) none =
      .error VErr.cliqueMixHashNonZero := by
  refine ⟨by decide, by decide, ?_⟩
  decide

/-- C2 (amended): on a clique chain the format requirements of
`validate` for a non-genesis header are: a non-epoch-transition header
must have exactly 97 bytes of extraData AND a 32-zero-byte mixHash,
while an epoch-transition header must have a signer-list length
divisible by 20, a zero coinbase, and a 32-zero-byte mixHash — each
violation rejected with its own error, characterized here as four
exact iffs on `validate`'s result. -/
theorem c2_clique_format (c : Common) (h : BlockHeader)
    (p : Option BlockHeader) (ht : Option Nat)
    (hclique : c.consensusAlgorithm = "clique")
    (hng : isGenesis h = false) :
    (validate c h p ht = .error VErr.cliqueExtraDataLength ↔
      (cliqueIsEpochTransition c h = false ∧ h.extraData.length ≠ 97)) ∧
    (validate c h p ht = .error VErr.cliqueSignerListLength ↔
      (cliqueIsEpochTransition c h = true ∧
        Int.tmod ((h.extraData.length : Int) - 97) 20 ≠ 0)) ∧
    (validate c h p ht = .error VErr.cliqueCoinbaseNonZero ↔
      (cliqueIsEpochTransition c h = true ∧
        Int.tmod ((h.extraData.length : Int) - 97) 20 = 0 ∧
        h.coinbase ≠ List.replicate 20 0)) ∧
    (validate c h p ht = .error VErr.cliqueMixHashNonZero ↔
      ((if cliqueIsEpochTransition c h then
          Int.tmod ((h.extraData.length : Int) - 97) 20 = 0 ∧
            h.coinbase = List.replicate 20 0
        else h.extraData.length = 97) ∧
        h.mixHash ≠ List.replicate 32 0)) := by
  refine ⟨?_, ?_, ?_, ?_⟩
  · rw [validate_format_error_iff c h p ht hng _ (Or.inl rfl)]
    exact checkExtraData_lenErr_iff c h hclique
  · rw [validate_format_error_iff c h p ht hng _ (Or.inr (Or.inl rfl))]
    exact checkExtraData_signerErr_iff c h hclique
  · rw [validate_format_error_iff c h p ht hng _ (Or.inr (Or.inr (Or.inl rfl)))]
    exact checkExtraData_coinbaseErr_iff c h hclique
  · rw [validate_format_error_iff c h p ht hng _
      (Or.inr (Or.inr (Or.inr rfl)))]
    exact checkExtraData_mixHash_iff c h hclique

set_option maxRecDepth 16384 in
/-- C2 witness: each format leg rejected concretely — a non-epoch
header with 96-byte extraData, an epoch header with a 33-byte signer
area, an epoch header with a nonzero coinbase, and an epoch header
(number 30,000, two signer slots, zero coinbase) with a nonzero
mixHash. -/
theorem c2_clique_format_witness :
    validate cliqueCommon cliqueShortExtra (some cliqueParent) none =
      .error VErr.cliqueExtraDataLength ∧
    validate cliqueCommon cliqueEpochBadSigners (some cliqueParent) none =
      .error VErr.cliqueSignerListLength ∧
    validate cliqueCommon cliqueEpochBadCoinbase (some cliqueParent) none =
      .error VErr.cliqueCoinbaseNonZero ∧
    validate cliqueCommon cliqueEpochBadMix (some cliqueParent) none =
      .error VErr.cliqueMixHashNonZero :=
  ⟨(c2_clique_format cliqueCommon cliqueShortExtra (some cliqueParent) none
      (by decide) (by decide)).1.mpr (by decide),
   (c2_clique_format cliqueCommon cliqueEpochBadSigners (some cliqueParent)
      none (by decide) (by decide)).2.1.mpr (by decide),
   (c2_clique_format cliqueCommon cliqueEpochBadCoinbase (some cliqueParent)
      none (by decide) (by decide)).2.2.1.mpr (by decide),
   (c2_clique_format cliqueCommon cliqueEpochBadMix (some cliqueParent) none
      (by decide) (by decide)).2.2.2.mpr (by decide)⟩

/-! ## Claim C4 -/

/-- C4: `validateGasLimit(parent)` holds iff the gas limit lies strictly
between `parent.gasLimit ± parent.gasLimit / gasLimitBoundDivisor` and
is at least `minGasLimit`; and when the checks before the gas-limit
check in `validate` pass, `validate` raises `InvalidGasLimit` exactly
when this predicate is false. -/
theorem c4_gas_limit_bounds (c : Common) (h parent : BlockHeader)
    (ht : Option Nat)
    (hng : isGenesis h = false)
    (hfmt : checkExtraData c h = .ok ())
    (hnum : h.number = parent.number + 1)
    (hts : parent.timestamp < h.timestamp)
    (hper : c.consensusAlgorithm = "clique" →
      parent.timestamp + c.consensusPeriod ≤ h.timestamp)
    (hdiff : c.consensusType = "pow" →
      canonicalDifficulty c h parent = .ok (h.difficulty : Int)) :
    (validateGasLimit c h parent = true ↔
      (parent.gasLimit -
          parent.gasLimit / c.gasLimitBoundDivisor c.resolvedHardfork <
          h.gasLimit ∧
        h.gasLimit <
          parent.gasLimit +
            parent.gasLimit / c.gasLimitBoundDivisor c.resolvedHardfork ∧
        c.minGasLimit c.resolvedHardfork ≤ h.gasLimit)) ∧
    (validate c h (some parent) ht = .error VErr.invalidGasLimit ↔
      validateGasLimit c h parent = false) := by
  constructor
  · unfold validateGasLimit
    simp only [Bool.and_eq_true, decide_eq_true_eq]
    tauto
  · unfold validate
    rw [if_neg (by simp [hng]), hfmt]
    simp only [Bind.bind, Except.bind]
    simp only [validateAgainstParent]
    rw [if_neg (by simp [hnum]), if_neg (by omega)]
    rw [if_neg (by
      by_cases halg : c.consensusAlgorithm = "clique"
      · simp [halg, Nat.not_lt.mpr (hper halg)]
      · simp [halg])]
    have hA : checkDifficultyStep c h parent = .ok () := by
      unfold checkDifficultyStep
      split_ifs with hp
      · unfold validateDifficulty
        rw [if_neg (by simp [hp]), hdiff hp]
        simp [Except.map]
      · rfl
    rw [hA]
    simp only [Bind.bind, Except.bind]
    cases hg : validateGasLimit c h parent
    · rw [show checkGasStep c h parent = .error VErr.invalidGasLimit from by
        unfold checkGasStep; rw [hg]; rfl]
      simp
    · rw [show checkGasStep c h parent = .ok () from by
        unfold checkGasStep; rw [hg]; rfl]
      constructor
      · intro hv
        exact absurd (checkUncleStep_errors parent ht _ hv) (by simp)
      · intro hv
        exact absurd hv (by simp)

/-- C4 witness: the S1 header/parent pair on the byzantium chain —
a = 8,000,000 / 1024 = 7812, the header gas limit 8,000,000 lies
strictly inside the band and above the minimum. -/
theorem c4_gas_limit_bounds_witness :
    validateGasLimit byzCommon headerS1 parentS1 = true :=
  (c4_gas_limit_bounds byzCommon headerS1 parentS1 none (by decide) (by decide)
    (by decide) (by decide) (by decide) (by decide)).1.mpr (by decide)

/-! ## Claim C7 -/

/-- C7: for any keccak256 function, the hash of a non-genesis header on
a clique chain is keccak256 of the RLP of `raw()` with element 12
replaced by `extraData` truncated by the 65 seal bytes; for a genesis
header or a non-clique chain, no truncation occurs. -/
theorem c7_hash_clique_exclusion (keccak : List Nat → List Nat) (c : Common)
    (h : BlockHeader) :
    (c.consensusAlgorithm = "clique" → h.number ≠ 0 →
      hashWith keccak c h = keccak (rlpEncodeList
        [h.parentHash, h.uncleHash, h.coinbase, h.stateRoot,
         h.transactionsTrie, h.receiptTrie, h.bloom, natToBE h.difficulty,
         natToBE h.number, natToBE h.gasLimit, natToBE h.gasUsed,
         natToBE h.timestamp,
         h.extraData.take (h.extraData.length - CLIQUE_EXTRA_SEAL),
         h.mixHash, h.nonce])) ∧
    ((c.consensusAlgorithm ≠ "clique" ∨ h.number = 0) →
      hashWith keccak c h = keccak (rlpEncodeList (raw h))) := by
  constructor
  · intro hcl hng
    simp only [hashWith]
    rw [if_pos (by simp [hcl, isGenesis, hng])]
    congr 1
  · intro hor
    simp only [hashWith]
    rw [if_neg (by
      rcases hor with hc | hg
      · simp [hc]
      · simp [isGenesis, hg])]

/-- C7 witness: a clique header at number 1 with 97-byte extraData
hashes the truncated sequence; the same field values under the ethash
chain hash the untruncated `raw()`. -/
theorem c7_hash_clique_exclusion_witness :
    hashWith id cliqueCommon cliqueHeaderBadMix =
      id (rlpEncodeList
        [cliqueHeaderBadMix.parentHash, cliqueHeaderBadMix.uncleHash,
         cliqueHeaderBadMix.coinbase, cliqueHeaderBadMix.stateRoot,
         cliqueHeaderBadMix.transactionsTrie, cliqueHeaderBadMix.receiptTrie,
         cliqueHeaderBadMix.bloom, natToBE cliqueHeaderBadMix.difficulty,
         natToBE cliqueHeaderBadMix.number, natToBE cliqueHeaderBadMix.gasLimit,
         natToBE cliqueHeaderBadMix.gasUsed,
         natToBE cliqueHeaderBadMix.timestamp,
         cliqueHeaderBadMix.extraData.take
           (cliqueHeaderBadMix.extraData.length - CLIQUE_EXTRA_SEAL),
         cliqueHeaderBadMix.mixHash, cliqueHeaderBadMix.nonce]) ∧
    hashWith id byzCommon cliqueHeaderBadMix =
      id (rlpEncodeList (raw cliqueHeaderBadMix)) :=
  ⟨(c7_hash_clique_exclusion id cliqueCommon cliqueHeaderBadMix).1 (by decide)
      (by decide),
   (c7_hash_clique_exclusion id byzCommon cliqueHeaderBadMix).2
      (Or.inl (by decide))⟩

/-! ## Claim C1 -/

/-- C1: on a PoW ethash chain whose resolved hardfork is at least
byzantium, with `header.timestamp ≥ parent.timestamp`, the canonical
difficulty is `max(minimumDifficulty, parent.difficulty + bound·a +
bomb)` with `bound = parent.difficulty / difficultyBoundDivisor`,
`a = max(-99, u − (Δt / 9))` (`u` 1 with an empty uncle list, else 2),
and `bomb = 2^((max(0, number − delay) / 100_000) − 2)` when that
exponent is non-negative (else 0), with `delay` 9,000,000 / 5,000,000 /
3,000,000 for muirGlacier / constantinople / byzantium. -/
theorem c1_canonical_difficulty_byzantium (c : Common) (h p : BlockHeader)
    (hpow : c.consensusType = "pow")
    (halg : c.consensusAlgorithm = "ethash")
    (hbyz : hardforkGteHardfork c.resolvedHardfork .byzantium = true)
    (hts : p.timestamp ≤ h.timestamp) :
    canonicalDifficulty c h p =
      .ok (max (c.minimumDifficulty c.resolvedHardfork : Int)
        ((p.difficulty : Int) +
          ((p.difficulty / c.difficultyBoundDivisor c.resolvedHardfork :
              Nat) : Int) *
            max (-99) ((if p.uncleHash = KECCAK256_RLP_ARRAY then 1 else 2) -
              (((h.timestamp - p.timestamp) / 9 : Nat) : Int)) +
          (if (0 : Int) ≤
              (((h.number -
                  (if hardforkGteHardfork c.resolvedHardfork .muirGlacier then
                    9000000
                  else if hardforkGteHardfork c.resolvedHardfork
                      .constantinople then 5000000
                  else 3000000)) / 100000 : Nat) : Int) - 2 then
            (2 : Int) ^
              ((((h.number -
                  (if hardforkGteHardfork c.resolvedHardfork .muirGlacier then
                    9000000
                  else if hardforkGteHardfork c.resolvedHardfork
                      .constantinople then 5000000
                  else 3000000)) / 100000 : Nat) : Int) - 2).toNat
          else 0))) := by
  have htd : Int.tdiv ((h.timestamp : Int) - (p.timestamp : Int)) 9 =
      (((h.timestamp - p.timestamp) / 9 : Nat) : Int) := by
    rw [show ((h.timestamp : Int) - (p.timestamp : Int)) =
        (((h.timestamp - p.timestamp : Nat)) : Int) by omega]
    rw [show (9 : Int) = ((9 : Nat) : Int) by norm_num]
    exact (Int.ofNat_tdiv _ _).symm
  unfold canonicalDifficulty
  rw [if_neg (by simp [hpow]), if_neg (by simp [halg])]
  simp only [hbyz, if_true]
  rw [htd, ite_gt_max, ite_add_pull, ite_clamp_max]
  by_cases h1 : hardforkGteHardfork c.resolvedHardfork .muirGlacier = true
  · simp [h1]
  · rw [Bool.not_eq_true] at h1
    by_cases h2 : hardforkGteHardfork c.resolvedHardfork .constantinople = true
    · simp [h1, h2]
    · rw [Bool.not_eq_true] at h2
      simp [h1, h2, hbyz]

/-- C1 witness: scenario S1 — byzantium, no uncles, Δt = 9, number
5,000,000: the canonical difficulty is 1,000,000,262,144
(= 10^12 + 2^18). -/
theorem c1_canonical_difficulty_byzantium_witness :
    canonicalDifficulty byzCommon headerS1 parentS1 =
      .ok (1000000262144 : Int) :=
  (c1_canonical_difficulty_byzantium byzCommon headerS1 parentS1 rfl rfl
    (by decide) (by decide)).trans (by decide)

/-! ## Big-endian encoding lemmas -/

theorem natToBEAux_zero (f : Nat) : natToBEAux f 0 = [] := by
  cases f <;> rfl

theorem natToBEAux_congr : ∀ n f g, n ≤ f → n ≤ g →
    natToBEAux f n = natToBEAux g n := by
  intro n
  induction n using Nat.strong_induction_on with
  | _ n ih =>
    intro f g hf hg
    cases n with
    | zero => rw [natToBEAux_zero, natToBEAux_zero]
    | succ m =>
      obtain ⟨f', rfl⟩ : ∃ f', f = f' + 1 := ⟨f - 1, by omega⟩
      obtain ⟨g', rfl⟩ : ∃ g', g = g' + 1 := ⟨g - 1, by omega⟩
      simp only [natToBEAux]
      congr 1
      have hlt : (m + 1) / 256 < m + 1 :=
        Nat.div_lt_self (Nat.succ_pos m) (by norm_num)
      exact ih ((m + 1) / 256) hlt f' g' (by omega) (by omega)

theorem natToBE_eq (n : Nat) :
    natToBE n = if n = 0 then [] else natToBE (n / 256) ++ [n % 256] := by
  cases n with
  | zero => rfl
  | succ m =>
    rw [if_neg (Nat.succ_ne_zero m)]
    show natToBEAux (m + 1) (m + 1) = natToBE ((m + 1) / 256) ++ [(m + 1) % 256]
    simp only [natToBEAux]
    congr 1
    have hlt : (m + 1) / 256 < m + 1 :=
      Nat.div_lt_self (Nat.succ_pos m) (by norm_num)
    exact natToBEAux_congr ((m + 1) / 256) m ((m + 1) / 256) (by omega)
      (le_refl _)

theorem beToNat_append (l : List Nat) (b : Nat) :
    beToNat (l ++ [b]) = beToNat l * 256 + b := by
  simp [beToNat, List.foldl_append]

theorem beToNat_natToBE (n : Nat) : beToNat (natToBE n) = n := by
  induction n using Nat.strong_induction_on with
  | _ n ih =>
    rw [natToBE_eq]
    split_ifs with h0
    · simp [beToNat, h0]
    · rw [beToNat_append,
        ih (n / 256) (Nat.div_lt_self (Nat.pos_of_ne_zero h0) (by norm_num))]
      omega

theorem natToBE_eq_nil_iff (n : Nat) : natToBE n = [] ↔ n = 0 := by
  constructor
  · intro hnil
    have hb := beToNat_natToBE n
    rw [hnil] at hb
    simpa [beToNat] using hb.symm
  · intro h0
    subst h0
    rfl

theorem natToBE_length_le : ∀ n k, n < 256 ^ k → (natToBE n).length ≤ k := by
  intro n
  induction n using Nat.strong_induction_on with
  | _ n ih =>
    intro k hk
    rw [natToBE_eq]
    split_ifs with h0
    · simp
    · cases k with
      | zero =>
        simp at hk
        omega
      | succ k' =>
        have hd : n / 256 < 256 ^ k' := by
          rw [Nat.div_lt_iff_lt_mul (by norm_num : 0 < 256)]
          calc n < 256 ^ (k' + 1) := hk
            _ = 256 ^ k' * 256 := by ring
        have hih := ih (n / 256)
          (Nat.div_lt_self (Nat.pos_of_ne_zero h0) (by norm_num)) k' hd
        simp only [List.length_append, List.length_cons, List.length_nil]
        omega

theorem natToBE_headI_ne_zero : ∀ n, n ≠ 0 → (natToBE n).headI ≠ 0 := by
  intro n
  induction n using Nat.strong_induction_on with
  | _ n ih =>
    intro h0
    rw [natToBE_eq, if_neg h0]
    by_cases hq : n / 256 = 0
    · rw [hq]
      show ((natToBE 0) ++ [n % 256]).headI ≠ 0
      simp [natToBE_eq]
      omega
    · have hhd := ih (n / 256)
        (Nat.div_lt_self (Nat.pos_of_ne_zero h0) (by norm_num)) hq
      rcases hl : natToBE (n / 256) with _ | ⟨a, as⟩
      · exact absurd ((natToBE_eq_nil_iff _).mp hl) hq
      · rw [hl] at hhd
        simpa using hhd

/-! ## RLP codec lemmas -/

theorem rlpEncodeStr_ne_nil (s : List Nat) : rlpEncodeStr s ≠ [] := by
  unfold rlpEncodeStr
  split_ifs with h1 h2
  · obtain ⟨b, rfl⟩ := List.length_eq_one.mp h1.1
    simp
  · simp
  · simp

theorem parseRlpStr_encode (s rest : List Nat) (hs : s.length < 256 ^ 8) :
    parseRlpStr (rlpEncodeStr s ++ rest) = some (s, rest) := by
  unfold rlpEncodeStr
  split_ifs with h1 h2
  · obtain ⟨b, rfl⟩ := List.length_eq_one.mp h1.1
    have hb : b < 128 := by simpa using h1.2
    simp [parseRlpStr, hb]
  · simp only [List.cons_append, parseRlpStr]
    rw [if_neg (by omega), if_pos (by omega)]
    have hc : 128 + s.length - 128 = s.length := by omega
    simp only [hc]
    rw [if_pos (by simp)]
    rw [List.take_left, List.drop_left]
  · have hne : natToBE s.length ≠ [] := by
      rw [ne_eq, natToBE_eq_nil_iff]
      omega
    have hll : (natToBE s.length).length ≤ 8 := natToBE_length_le _ 8 hs
    have hllpos : 0 < (natToBE s.length).length := List.length_pos.mpr hne
    simp only [List.cons_append, List.append_assoc, parseRlpStr]
    rw [if_neg (by omega), if_neg (by omega), if_pos (by omega)]
    have hc : 183 + (natToBE s.length).length - 183 =
        (natToBE s.length).length := by omega
    simp only [hc]
    rw [if_pos (by simp only [List.length_append]; omega)]
    rw [List.take_left, List.drop_left, beToNat_natToBE]
    rw [if_pos (by simp)]
    rw [List.take_left, List.drop_left]

theorem parseRlpStrs_nil (f : Nat) : parseRlpStrs f [] = some [] := by
  cases f <;> rfl

theorem parseRlpStrs_encode : ∀ (items : List (List Nat)) (fuel : Nat),
    (∀ s ∈ items, s.length < 256 ^ 8) →
    ((items.map rlpEncodeStr).flatten).length ≤ fuel →
    parseRlpStrs fuel ((items.map rlpEncodeStr).flatten) = some items := by
  intro items
  induction items with
  | nil =>
    intro fuel _ _
    simpa using parseRlpStrs_nil fuel
  | cons x xs ih =>
    intro fuel hmem hf
    simp only [List.map_cons, List.flatten_cons] at hf ⊢
    rcases hb : rlpEncodeStr x with _ | ⟨b, bs⟩
    · exact absurd hb (rlpEncodeStr_ne_nil x)
    · cases fuel with
      | zero =>
        exfalso
        rw [hb] at hf
        simp at hf
      | succ f =>
        have htail : ((xs.map rlpEncodeStr).flatten).length ≤ f := by
          rw [hb] at hf
          simp only [List.cons_append, List.length_cons, List.length_append]
            at hf
          omega
        rw [List.cons_append]
        simp only [parseRlpStrs]
        rw [show parseRlpStr (b :: (bs ++ (xs.map rlpEncodeStr).flatten)) =
            some (x, (xs.map rlpEncodeStr).flatten) from by
          rw [← List.cons_append, ← hb]
          exact parseRlpStr_encode x _ (hmem x (by simp))]
        simp only [ih f (fun s hs => hmem s (by simp [hs])) htail]

theorem rlpDecode_encode (items : List (List Nat))
    (hitems : ∀ s ∈ items, s.length < 256 ^ 8)
    (hp : ((items.map rlpEncodeStr).flatten).length < 256 ^ 8) :
    rlpDecodeStrList (rlpEncodeList items) = some items := by
  simp only [rlpEncodeList]
  split_ifs with hshort
  · simp only [rlpDecodeStrList]
    rw [if_neg (by omega), if_pos (by omega)]
    rw [if_pos (by omega)]
    exact parseRlpStrs_encode items _ hitems (le_refl _)
  · have hne : natToBE ((items.map rlpEncodeStr).flatten).length ≠ [] := by
      rw [ne_eq, natToBE_eq_nil_iff]
      omega
    have hll : (natToBE ((items.map rlpEncodeStr).flatten).length).length ≤ 8 :=
      natToBE_length_le _ 8 hp
    have hllpos :
        0 < (natToBE ((items.map rlpEncodeStr).flatten).length).length :=
      List.length_pos.mpr hne
    simp only [rlpDecodeStrList]
    rw [if_neg (by omega), if_neg (by omega)]
    have hc : 247 + (natToBE ((items.map rlpEncodeStr).flatten).length).length
        - 247 =
        (natToBE ((items.map rlpEncodeStr).flatten).length).length := by omega
    simp only [hc]
    rw [if_pos (by simp only [List.length_append]; omega)]
    rw [List.take_left, List.drop_left, beToNat_natToBE]
    rw [if_pos rfl]
    exact parseRlpStrs_encode items _ hitems (le_refl _)

/-! ## Claim C5 -/

/-- C5: for every valid header (widths correct, 20-byte coinbase, DAO
gate satisfied, field and payload sizes within the 64-bit length
bound), decoding the RLP serialization round-trips to an equal header
(hence equal `raw()` byte-for-byte); the numeric encoding is minimal
big-endian — empty for zero, no leading zero byte otherwise. -/
theorem c5_rlp_roundtrip (c : Common) (h : BlockHeader)
    (hvalid : validateHeaderFields h = .ok ())
    (hdao : checkDAOExtraData c h = .ok ())
    (hcb : h.coinbase.length = 20)
    (hitems : ∀ s ∈ raw h, s.length < 256 ^ 8)
    (hpayload : (((raw h).map rlpEncodeStr).flatten).length < 256 ^ 8) :
    fromRLPSerializedHeader c (serialize h) = .ok h ∧
    natToBE 0 = [] ∧ (∀ n : Nat, n ≠ 0 → (natToBE n).headI ≠ 0) := by
  refine ⟨?_, rfl, natToBE_headI_ne_zero⟩
  obtain ⟨f1, f2, f3, f4, f5, f6, f7, f8, f9, f10, f11, f12, f13, f14, f15⟩ := h
  unfold serialize fromRLPSerializedHeader
  rw [rlpDecode_encode (raw _) hitems hpayload]
  show fromValuesArray c (raw _) = _
  unfold fromValuesArray
  rw [if_neg (by simp [raw])]
  simp only [raw, List.getD_cons_zero, List.getD_cons_succ]
  rw [if_neg (by simpa using hcb)]
  simp only [beToNat_natToBE]
  simp only [mkBlockHeader]
  rw [hvalid]
  show (checkDAOExtraData c _ >>= fun _ => pure _) = _
  rw [hdao]
  rfl

set_option maxRecDepth 200000 in
/-- C5 witness: the scenario-S4 header round-trips through
serialize / fromRLPSerializedHeader. -/
theorem c5_rlp_roundtrip_witness :
    fromRLPSerializedHeader byzCommon (serialize headerS4) =
      .ok headerS4 :=
  (c5_rlp_roundtrip byzCommon headerS4 (by decide) (by decide) (by decide)
    (by decide) (by decide)).1

end EJS
